import Mathlib

/-
Verification development for the Cypress TrueTouch TTSP4 SPI register
transport (drivers/input/touchscreen/cyttsp4/cyttsp4_spi.c).

Shallow embedding notes:
- The injected duplex-transfer primitive spi_sync is modelled by an oracle
  (`SpiResponse` per bus transaction): the integer return code of spi_sync
  and the sync byte it deposited at offset 0 of rd_hdr_buf.
- A bus transaction (one spi_message) is a list of `Segment`s; each function
  returns, besides its integer result, the list of transactions it actually
  issued, so that exchange counts and wire contents can be stated.
- C u8 parameters are embedded as Nat with an explicit `% 256` truncation at
  the function boundary (cyttsp4_spi_xfer's `u8 reg`, line 77 of the source).
- errno values: EINVAL = 22, EIO = 5; the driver returns their negations.
-/

set_option autoImplicit false

namespace CyttspSpi

/-- CY_SPI_WR_OP, cyttsp4_spi.c line 44. -/
def CY_SPI_WR_OP : Nat := 0x00

/-- CY_SPI_RD_OP, line 45. -/
def CY_SPI_RD_OP : Nat := 0x01

/-- CY_SPI_A8_BIT, line 46: extended-address bit. -/
def CY_SPI_A8_BIT : Nat := 0x02

/-- CY_SPI_WR_HEADER_BYTES, line 47. -/
def CY_SPI_WR_HEADER_BYTES : Nat := 2

/-- CY_SPI_RD_HEADER_BYTES, line 48. -/
def CY_SPI_RD_HEADER_BYTES : Nat := 1

/-- CY_SPI_SYNC_ACK, line 50: the sync acknowledgment constant 0x62. -/
def CY_SPI_SYNC_ACK : Nat := 0x62

/-- CY_SPI_DATA_SIZE, line 51: maximum combined header+payload bytes. -/
def CY_SPI_DATA_SIZE : Nat := 3 * 256

/-- The errno value EINVAL (the driver returns -EINVAL). -/
def EINVAL : Int := 22

/-- The errno value EIO (the driver returns -EIO). Named EIO_val here. -/
def EIO_val : Int := 5

/-- Observable behaviour of one spi_sync call: the transport return code
`rc` and the byte the bus deposited at rd_hdr_buf[CY_SPI_SYNC_BYTE]. -/
structure SpiResponse where
  rc : Int
  syncByte : Nat
  deriving DecidableEq

/-- One spi_transfer segment of an spi_message, as configured at lines
92-158: the header segment has both tx_buf and rx_buf set (duplex); a write
payload is transmit-only; a read payload is receive-only. -/
inductive Segment where
  | duplex (tx : List Nat) : Segment
  | txOnly (tx : List Nat) : Segment
  | rxOnly (len : Nat) : Segment
  deriving DecidableEq

/-- Events emitted by the adapter entry points (lines 288-316), recording
the order of runtime-pm calls, mutex operations and bus transactions. -/
inductive Event where
  | pmGet : Event
  | lockAcquire : Event
  | busExchange (msg : List Segment) : Event
  | lockRelease : Event
  | pmPut : Event
  deriving DecidableEq

/-- Write-direction header construction, lines 108-115: byte 0 is
CY_SPI_WR_OP with CY_SPI_A8_BIT added when reg > 255 (dead for a u8 reg),
byte 1 is reg % 256. -/
def wrHeader (reg : Nat) : List Nat :=
  [if reg > 255 then CY_SPI_WR_OP + CY_SPI_A8_BIT else CY_SPI_WR_OP, reg % 256]

/-- cyttsp4_spi_xfer, lines 76-230.  `reg` is a `u8` parameter in C, hence
the truncation `reg % 256` at entry.  Returns the C return value together
with `some msg` when spi_sync was reached (msg is the transaction's segment
list) and `none` when a precheck failed before any bus activity.
The spi_sync return code `resp.rc` is only logged on error (lines 168-176,
no early return) and is then unconditionally overwritten by the ACK check of
lines 197-226, so it does not influence the result. -/
def cyttsp4_spi_xfer (op : Nat) (reg : Nat) (buf : Option (List Nat)) (length : Nat)
    (resp : SpiResponse) : Int × Option (List Segment) :=
  let reg := reg % 256
  if op = CY_SPI_WR_OP then
    if length + CY_SPI_WR_HEADER_BYTES > CY_SPI_DATA_SIZE then
      (-EINVAL, none)
    else
      let msg : List Segment :=
        Segment.duplex (wrHeader reg) ::
          (match buf with
           | some d => [Segment.txOnly d]
           | none => [])
      let rc : Int := if resp.syncByte ≠ CY_SPI_SYNC_ACK then 1 else 0
      (rc, some msg)
  else if op = CY_SPI_RD_OP then
    if buf = none then
      (-EINVAL, none)
    else if length + CY_SPI_RD_HEADER_BYTES > CY_SPI_DATA_SIZE then
      (-EINVAL, none)
    else
      let msg : List Segment := [Segment.duplex [CY_SPI_RD_OP], Segment.rxOnly length]
      let rc : Int := if resp.syncByte ≠ CY_SPI_SYNC_ACK then 1 else 0
      (rc, some msg)
  else
    (-EINVAL, none)

/-- cyttsp4_spi_read_block_data, lines 232-262.  Phase 1 writes the address
(xfer with op = CY_SPI_WR_OP, NULL buffer, length 0); an `rc < 0` result
returns early; otherwise phase 2 reads the data and a positive rc (ACK
mismatch) is converted to -EIO.  The oracle `t` gives the spi_sync outcome
of the i-th transaction of this call.  The second component collects the
transactions issued. -/
def cyttsp4_spi_read_block_data (addr : Nat) (length : Nat) (data : Option (List Nat))
    (t : Nat → SpiResponse) : Int × List (List Segment) :=
  let r1 := cyttsp4_spi_xfer CY_SPI_WR_OP addr none 0 (t 0)
  if r1.1 < 0 then
    (r1.1, r1.2.toList)
  else
    let r2 := cyttsp4_spi_xfer CY_SPI_RD_OP addr data length (t 1)
    let rc : Int := if r2.1 < 0 then r2.1 else if r2.1 > 0 then -EIO_val else r2.1
    (rc, r1.2.toList ++ r2.2.toList)

/-- cyttsp4_spi_write_block_data, lines 264-286: one xfer with op =
CY_SPI_WR_OP; a negative rc is returned as is (after a log), a positive rc
(ACK mismatch) becomes -EIO. -/
def cyttsp4_spi_write_block_data (addr : Nat) (length : Nat) (data : List Nat)
    (t : Nat → SpiResponse) : Int × List (List Segment) :=
  let r := cyttsp4_spi_xfer CY_SPI_WR_OP addr (some data) length (t 0)
  let rc : Int := if r.1 < 0 then r.1 else if r.1 > 0 then -EIO_val else r.1
  (rc, r.2.toList)

/-- cyttsp4_spi_write, lines 288-301: pm_runtime_get_noresume, mutex_lock,
the block write, mutex_unlock, pm_runtime_put_noidle — straight-line code
with no early exit, so lock release happens on every path.  The second
component is the event trace. -/
def cyttsp4_spi_write (addr : Nat) (buf : List Nat) (size : Nat)
    (t : Nat → SpiResponse) : Int × List Event :=
  let r := cyttsp4_spi_write_block_data addr size buf t
  (r.1, [Event.pmGet, Event.lockAcquire] ++ r.2.map Event.busExchange ++
    [Event.lockRelease, Event.pmPut])

/-- cyttsp4_spi_read, lines 303-316: same bracketing around the block read. -/
def cyttsp4_spi_read (addr : Nat) (buf : Option (List Nat)) (size : Nat)
    (t : Nat → SpiResponse) : Int × List Event :=
  let r := cyttsp4_spi_read_block_data addr size buf t
  (r.1, [Event.pmGet, Event.lockAcquire] ++ r.2.map Event.busExchange ++
    [Event.lockRelease, Event.pmPut])

/-! ## Helper lemmas -/

/-- The ACK-classification value of lines 197-226 is 0 or 1, never negative. -/
theorem ack_rc_nonneg (resp : SpiResponse) :
    ¬ ((if resp.syncByte ≠ CY_SPI_SYNC_ACK then (1 : Int) else 0) < 0) := by
  split <;> decide

/-- Unfolding of a write-direction xfer whose size precheck passes. -/
theorem xfer_wr_eq (reg : Nat) (buf : Option (List Nat)) (length : Nat) (resp : SpiResponse)
    (h : length + CY_SPI_WR_HEADER_BYTES ≤ CY_SPI_DATA_SIZE) :
    cyttsp4_spi_xfer CY_SPI_WR_OP reg buf length resp =
      ((if resp.syncByte ≠ CY_SPI_SYNC_ACK then (1 : Int) else 0),
       some (Segment.duplex (wrHeader (reg % 256)) ::
         (match buf with
          | some d => [Segment.txOnly d]
          | none => []))) := by
  have hlen : ¬ (length + CY_SPI_WR_HEADER_BYTES > CY_SPI_DATA_SIZE) := by omega
  simp [cyttsp4_spi_xfer, hlen]

/-- Unfolding of a read-direction xfer whose prechecks pass. -/
theorem xfer_rd_eq (reg : Nat) (d : List Nat) (length : Nat) (resp : SpiResponse)
    (h : length + CY_SPI_RD_HEADER_BYTES ≤ CY_SPI_DATA_SIZE) :
    cyttsp4_spi_xfer CY_SPI_RD_OP reg (some d) length resp =
      ((if resp.syncByte ≠ CY_SPI_SYNC_ACK then (1 : Int) else 0),
       some [Segment.duplex [CY_SPI_RD_OP], Segment.rxOnly length]) := by
  have hlen : ¬ (length + CY_SPI_RD_HEADER_BYTES > CY_SPI_DATA_SIZE) := by omega
  simp [cyttsp4_spi_xfer, hlen, CY_SPI_RD_OP, CY_SPI_WR_OP]

/-- A write-direction xfer that fails the size precheck does no bus activity. -/
theorem xfer_wr_oversize (reg : Nat) (buf : Option (List Nat)) (length : Nat)
    (resp : SpiResponse) (h : length + CY_SPI_WR_HEADER_BYTES > CY_SPI_DATA_SIZE) :
    cyttsp4_spi_xfer CY_SPI_WR_OP reg buf length resp = (-EINVAL, none) := by
  simp [cyttsp4_spi_xfer, h]

/-- A read-direction xfer with a missing buffer or failing size precheck does
no bus activity. -/
theorem xfer_rd_invalid (reg : Nat) (buf : Option (List Nat)) (length : Nat)
    (resp : SpiResponse)
    (h : length + CY_SPI_RD_HEADER_BYTES > CY_SPI_DATA_SIZE ∨ buf = none) :
    cyttsp4_spi_xfer CY_SPI_RD_OP reg buf length resp = (-EINVAL, none) := by
  cases buf with
  | none => simp [cyttsp4_spi_xfer, CY_SPI_RD_OP, CY_SPI_WR_OP]
  | some d =>
      rcases h with h | h
      · simp [cyttsp4_spi_xfer, h, CY_SPI_RD_OP, CY_SPI_WR_OP]
      · exact absurd h (by simp)

/-- cyttsp4_spi_xfer only ever returns -EINVAL, 0 or 1. -/
theorem xfer_fst_cases (op reg : Nat) (buf : Option (List Nat)) (length : Nat)
    (resp : SpiResponse) :
    (cyttsp4_spi_xfer op reg buf length resp).1 = -EINVAL ∨
    (cyttsp4_spi_xfer op reg buf length resp).1 = 0 ∨
    (cyttsp4_spi_xfer op reg buf length resp).1 = 1 := by
  simp only [cyttsp4_spi_xfer]
  repeat' split
  all_goals simp

/-- Unfolding of cyttsp4_spi_write_block_data with a passing precheck. -/
theorem write_block_eq (addr length : Nat) (data : List Nat) (t : Nat → SpiResponse)
    (h : length + CY_SPI_WR_HEADER_BYTES ≤ CY_SPI_DATA_SIZE) :
    cyttsp4_spi_write_block_data addr length data t =
      ((if (t 0).syncByte ≠ CY_SPI_SYNC_ACK then -EIO_val else 0),
       [[Segment.duplex (wrHeader (addr % 256)), Segment.txOnly data]]) := by
  have hx := xfer_wr_eq addr (some data) length (t 0) h
  by_cases hs : (t 0).syncByte = CY_SPI_SYNC_ACK <;>
    simp [cyttsp4_spi_write_block_data, hx, hs]

/-- The transaction list of read_block always starts with the phase-1
header-only address-set frame, whatever the other arguments and the
transport behaviour. -/
theorem read_block_phase1 (addr lenR : Nat) (data : Option (List Nat))
    (t : Nat → SpiResponse) :
    (cyttsp4_spi_read_block_data addr lenR data t).2 =
      [Segment.duplex (wrHeader (addr % 256))] ::
        (cyttsp4_spi_xfer CY_SPI_RD_OP addr data lenR (t 1)).2.toList := by
  have hx := xfer_wr_eq addr none 0 (t 0) (by decide)
  by_cases hs : (t 0).syncByte = CY_SPI_SYNC_ACK <;>
    simp [cyttsp4_spi_read_block_data, hx, hs]

/-- Unfolding of cyttsp4_spi_read_block_data with passing prechecks: the
result is the phase-2 ACK classification and exactly two transactions are
issued. -/
theorem read_block_eq (addr length : Nat) (data : List Nat) (t : Nat → SpiResponse)
    (h : length + CY_SPI_RD_HEADER_BYTES ≤ CY_SPI_DATA_SIZE) :
    cyttsp4_spi_read_block_data addr length (some data) t =
      ((if (t 1).syncByte ≠ CY_SPI_SYNC_ACK then -EIO_val else 0),
       [[Segment.duplex (wrHeader (addr % 256))],
        [Segment.duplex [CY_SPI_RD_OP], Segment.rxOnly length]]) := by
  have h1 := xfer_wr_eq addr none 0 (t 0) (by decide)
  have h2 := xfer_rd_eq addr data length (t 1) h
  by_cases hs0 : (t 0).syncByte = CY_SPI_SYNC_ACK <;>
    by_cases hs1 : (t 1).syncByte = CY_SPI_SYNC_ACK <;>
      simp [cyttsp4_spi_read_block_data, h1, h2, hs0, hs1]

/-! ## Claim theorems -/

/-- Claim C1: in every phase of both operations — any cyttsp4_spi_xfer call
that reached the bus (second component `isSome`) — if the response header's
sync byte equals CY_SPI_SYNC_ACK (0x62) the phase returns 0 (success), for
every transport return code `resp.rc`: spi_sync's code is only logged, never
returned before the ACK check (lines 167-176, 197-226). -/
theorem C1_valid_ack_means_success (op reg : Nat) (buf : Option (List Nat)) (length : Nat)
    (resp : SpiResponse)
    (hex : (cyttsp4_spi_xfer op reg buf length resp).2.isSome = true)
    (hack : resp.syncByte = CY_SPI_SYNC_ACK) :
    (cyttsp4_spi_xfer op reg buf length resp).1 = 0 := by
  simp only [cyttsp4_spi_xfer] at hex ⊢
  split_ifs at hex ⊢ <;> simp_all

/-- Witness for C1: a transport error code (-5) together with a valid ACK
still yields success. -/
theorem C1_valid_ack_means_success_witness :
    (cyttsp4_spi_xfer CY_SPI_WR_OP 5 none 0 ⟨-5, CY_SPI_SYNC_ACK⟩).1 = 0 :=
  C1_valid_ack_means_success CY_SPI_WR_OP 5 none 0 ⟨-5, CY_SPI_SYNC_ACK⟩ (by decide) rfl

/-- Claim C2 is false on the code: at this input phase 1 returns the
ACK-mismatch signal (value 1, first conjunct), yet read_block still performs
the phase-2 exchange (two transactions, third conjunct) and even returns 0
because phase 2 was acknowledged (second conjunct) — the short-circuit test
`rc < 0` at line 242 can never be true for an ACK mismatch (value 1). -/
theorem C2_counterexample :
    (cyttsp4_spi_xfer CY_SPI_WR_OP 3 none 0 ⟨-5, 0⟩).1 = 1 ∧
    (cyttsp4_spi_read_block_data 3 4 (some [0, 0, 0, 0])
      (fun i => if i = 0 then ⟨-5, 0⟩ else ⟨0, 0x62⟩)).1 = 0 ∧
    (cyttsp4_spi_read_block_data 3 4 (some [0, 0, 0, 0])
      (fun i => if i = 0 then ⟨-5, 0⟩ else ⟨0, 0x62⟩)).2.length = 2 := by
  decide

/-- Amended C2: phase 1 never short-circuits.  For every transport behaviour
`t` (including an ACK mismatch or a transport error in phase 1), a read_block
whose phase-2 prechecks pass performs exactly two exchanges, and its result
is the phase-2 ACK classification alone. -/
theorem C2_phase1_never_short_circuits (addr length : Nat) (data : List Nat)
    (t : Nat → SpiResponse)
    (h : length + CY_SPI_RD_HEADER_BYTES ≤ CY_SPI_DATA_SIZE) :
    (cyttsp4_spi_read_block_data addr length (some data) t).2.length = 2 ∧
    (cyttsp4_spi_read_block_data addr length (some data) t).1 =
      (if (t 1).syncByte ≠ CY_SPI_SYNC_ACK then -EIO_val else 0) := by
  rw [read_block_eq addr length data t h]
  exact ⟨rfl, rfl⟩

/-- Witness for the amended C2 at a concrete input with both phases failing
their ACK check and the transport reporting errors. -/
theorem C2_phase1_never_short_circuits_witness :
    (cyttsp4_spi_read_block_data 1 4 (some [9, 9, 9, 9]) (fun _ => ⟨-5, 0⟩)).2.length = 2 ∧
    (cyttsp4_spi_read_block_data 1 4 (some [9, 9, 9, 9]) (fun _ => ⟨-5, 0⟩)).1 = -EIO_val :=
  C2_phase1_never_short_circuits 1 4 [9, 9, 9, 9] (fun _ => ⟨-5, 0⟩) (by decide)

/-- Claim C3: with passing prechecks, whenever the response sync bytes differ
from 0x62 both operations report the distinguished retry signal -EIO — for
every transport return code (quantified freely through `t` and `u`), so the
outcome is independent of any TransportError code. -/
theorem C3_mismatch_reports_retry (addr lengthW lengthR : Nat) (dataW dataR : List Nat)
    (t u : Nat → SpiResponse)
    (hW : lengthW + CY_SPI_WR_HEADER_BYTES ≤ CY_SPI_DATA_SIZE)
    (hR : lengthR + CY_SPI_RD_HEADER_BYTES ≤ CY_SPI_DATA_SIZE)
    (hsW : ∀ i, (t i).syncByte ≠ CY_SPI_SYNC_ACK)
    (hsR : ∀ i, (u i).syncByte ≠ CY_SPI_SYNC_ACK) :
    (cyttsp4_spi_write_block_data addr lengthW dataW t).1 = -EIO_val ∧
    (cyttsp4_spi_read_block_data addr lengthR (some dataR) u).1 = -EIO_val := by
  rw [write_block_eq addr lengthW dataW t hW, read_block_eq addr lengthR dataR u hR]
  exact ⟨by rw [if_pos (hsW 0)], by rw [if_pos (hsR 1)]⟩

/-- Witness for C3: sync byte 0 with transport error code -5 on every
exchange gives -EIO for both operations. -/
theorem C3_mismatch_reports_retry_witness :
    (cyttsp4_spi_write_block_data 4 1 [9] (fun _ => ⟨-5, 0⟩)).1 = -EIO_val ∧
    (cyttsp4_spi_read_block_data 4 2 (some [0, 0]) (fun _ => ⟨-5, 0⟩)).1 = -EIO_val :=
  C3_mismatch_reports_retry 4 1 2 [9] [0, 0] (fun _ => ⟨-5, 0⟩) (fun _ => ⟨-5, 0⟩)
    (by decide) (by decide) (fun _ => by simp [CY_SPI_SYNC_ACK])
    (fun _ => by simp [CY_SPI_SYNC_ACK])

/-- Claim C4 is false on the code for reads: an oversize read_block request
(length 768, so 768 + 1 > 768) does fail with -EINVAL, but only after the
phase-1 address-set frame has already been exchanged — one bus transaction,
not zero. -/
theorem C4_counterexample :
    (cyttsp4_spi_read_block_data 0 768 (some []) (fun _ => ⟨0, 0x62⟩)).1 = -EINVAL ∧
    (cyttsp4_spi_read_block_data 0 768 (some []) (fun _ => ⟨0, 0x62⟩)).2.length = 1 := by
  decide

/-- Amended C4: an oversize write_block fails with -EINVAL and zero
exchanges; a read_block with an oversize length or a missing destination
buffer fails with -EINVAL but after exactly one exchange (the phase-1
address-set frame of line 241 precedes the phase-2 prechecks). -/
theorem C4_oversize_rejected (addr LW LR : Nat) (dataW : List Nat) (dataR : Option (List Nat))
    (t u : Nat → SpiResponse)
    (hW : LW + CY_SPI_WR_HEADER_BYTES > CY_SPI_DATA_SIZE)
    (hR : LR + CY_SPI_RD_HEADER_BYTES > CY_SPI_DATA_SIZE ∨ dataR = none) :
    ((cyttsp4_spi_write_block_data addr LW dataW t).1 = -EINVAL ∧
     (cyttsp4_spi_write_block_data addr LW dataW t).2.length = 0) ∧
    ((cyttsp4_spi_read_block_data addr LR dataR u).1 = -EINVAL ∧
     (cyttsp4_spi_read_block_data addr LR dataR u).2.length = 1) := by
  have h1 := xfer_wr_oversize addr (some dataW) LW (t 0) hW
  have h2 := xfer_rd_invalid addr dataR LR (u 1) hR
  have h3 := xfer_wr_eq addr none 0 (u 0) (by decide)
  constructor
  · simp [cyttsp4_spi_write_block_data, h1, EINVAL]
  · by_cases hs : (u 0).syncByte = CY_SPI_SYNC_ACK <;>
      simp [cyttsp4_spi_read_block_data, h2, h3, hs, EINVAL]

/-- Witness for the amended C4 at concrete inputs (write length 767, read
length 768). -/
theorem C4_oversize_rejected_witness :
    ((cyttsp4_spi_write_block_data 0 767 [1] (fun _ => ⟨0, 0x62⟩)).1 = -EINVAL ∧
     (cyttsp4_spi_write_block_data 0 767 [1] (fun _ => ⟨0, 0x62⟩)).2.length = 0) ∧
    ((cyttsp4_spi_read_block_data 0 768 (some [2]) (fun _ => ⟨0, 0x62⟩)).1 = -EINVAL ∧
     (cyttsp4_spi_read_block_data 0 768 (some [2]) (fun _ => ⟨0, 0x62⟩)).2.length = 1) :=
  C4_oversize_rejected 0 767 768 [1] (some [2]) (fun _ => ⟨0, 0x62⟩) (fun _ => ⟨0, 0x62⟩)
    (by decide) (Or.inl (by decide))

/-- Claim C5 is false on the code: address 300 lies in [256,511], yet the
write header transmitted is [0x00, 44] — the extended-address bit 0x02 is
NOT set and the address was truncated mod 256, because the C parameter `reg`
is a u8 (line 77), making the `reg > 255` branch of line 109 unreachable. -/
theorem C5_counterexample :
    (cyttsp4_spi_write_block_data 300 1 [170] (fun _ => ⟨0, 0x62⟩)).2 =
      [[Segment.duplex [0x00, 44], Segment.txOnly [170]]] ∧
    (0x00 : Nat) ≠ CY_SPI_WR_OP + CY_SPI_A8_BIT := by
  decide

/-- Amended C5: the address parameter is an 8-bit value, truncated mod 256
before header construction; consequently header byte 0 is always exactly
CY_SPI_WR_OP (0x00) — the extended-address bit is clear for every address,
also for callers passing values in [256,511] — and byte 1 is addr mod 256. -/
theorem C5_header_bit_never_set (addr length : Nat) (data : List Nat) (t : Nat → SpiResponse)
    (h : length + CY_SPI_WR_HEADER_BYTES ≤ CY_SPI_DATA_SIZE) :
    (cyttsp4_spi_write_block_data addr length data t).2 =
      [[Segment.duplex [CY_SPI_WR_OP, addr % 256], Segment.txOnly data]] := by
  have h1 : ¬ (addr % 256 > 255) := by omega
  have h2 : addr % 256 % 256 = addr % 256 := by omega
  rw [write_block_eq addr length data t h]
  simp [wrHeader, h1, h2]

/-- Witness for the amended C5 at address 300 (a value the original claim
says should set the extended bit). -/
theorem C5_header_bit_never_set_witness :
    (cyttsp4_spi_write_block_data 300 1 [170] (fun _ => ⟨0, 0x62⟩)).2 =
      [[Segment.duplex [CY_SPI_WR_OP, 300 % 256], Segment.txOnly [170]]] :=
  C5_header_bit_never_set 300 1 [170] (fun _ => ⟨0, 0x62⟩) (by decide)

/-- Claim C6 is false on the code: address 600 > 511 does not produce
-EINVAL; the call simply truncates the address (600 mod 256 = 88) and
succeeds. No address range check exists anywhere in the driver. -/
theorem C6_counterexample :
    (cyttsp4_spi_write_block_data 600 1 [7] (fun _ => ⟨0, 0x62⟩)).1 = 0 ∧
    (cyttsp4_spi_write_block_data 600 1 [7] (fun _ => ⟨0, 0x62⟩)).1 ≠ -EINVAL := by
  decide

/-- Amended C6: register addresses are 8-bit at the whole interface; any
caller value behaves exactly like its residue mod 256, and no address value
ever yields -EINVAL (when the size prechecks pass). -/
theorem C6_no_address_range_check (addr lengthW lengthR : Nat) (dataW dataR : List Nat)
    (t u : Nat → SpiResponse)
    (hW : lengthW + CY_SPI_WR_HEADER_BYTES ≤ CY_SPI_DATA_SIZE)
    (hR : lengthR + CY_SPI_RD_HEADER_BYTES ≤ CY_SPI_DATA_SIZE) :
    cyttsp4_spi_write_block_data addr lengthW dataW t =
      cyttsp4_spi_write_block_data (addr % 256) lengthW dataW t ∧
    cyttsp4_spi_read_block_data addr lengthR (some dataR) u =
      cyttsp4_spi_read_block_data (addr % 256) lengthR (some dataR) u ∧
    (cyttsp4_spi_write_block_data addr lengthW dataW t).1 ≠ -EINVAL ∧
    (cyttsp4_spi_read_block_data addr lengthR (some dataR) u).1 ≠ -EINVAL := by
  have h2 : addr % 256 % 256 = addr % 256 := by omega
  refine ⟨?_, ?_, ?_, ?_⟩
  · rw [write_block_eq addr lengthW dataW t hW,
      write_block_eq (addr % 256) lengthW dataW t hW, h2]
  · rw [read_block_eq addr lengthR dataR u hR,
      read_block_eq (addr % 256) lengthR dataR u hR, h2]
  · rw [write_block_eq addr lengthW dataW t hW]
    split_ifs <;> simp [EIO_val, EINVAL]
  · rw [read_block_eq addr lengthR dataR u hR]
    split_ifs <;> simp [EIO_val, EINVAL]

/-- Witness for the amended C6 at address 600. -/
theorem C6_no_address_range_check_witness :
    cyttsp4_spi_write_block_data 600 1 [7] (fun _ => ⟨0, 0x62⟩) =
      cyttsp4_spi_write_block_data (600 % 256) 1 [7] (fun _ => ⟨0, 0x62⟩) ∧
    cyttsp4_spi_read_block_data 600 2 (some [0, 0]) (fun _ => ⟨0, 0x62⟩) =
      cyttsp4_spi_read_block_data (600 % 256) 2 (some [0, 0]) (fun _ => ⟨0, 0x62⟩) ∧
    (cyttsp4_spi_write_block_data 600 1 [7] (fun _ => ⟨0, 0x62⟩)).1 ≠ -EINVAL ∧
    (cyttsp4_spi_read_block_data 600 2 (some [0, 0]) (fun _ => ⟨0, 0x62⟩)).1 ≠ -EINVAL :=
  C6_no_address_range_check 600 1 2 [7] [0, 0] (fun _ => ⟨0, 0x62⟩) (fun _ => ⟨0, 0x62⟩)
    (by decide) (by decide)

/-- Claim C7: a write_block with valid arguments issues exactly one bus
transaction, whose segments are the 2-byte header (duplex, response slot
captured) followed by the unchanged payload as a transmit-only segment
(payload response slot discarded). -/
theorem C7_write_single_transaction (addr : Nat) (data : List Nat) (t : Nat → SpiResponse)
    (h : data.length + CY_SPI_WR_HEADER_BYTES ≤ CY_SPI_DATA_SIZE) :
    (cyttsp4_spi_write_block_data addr data.length data t).2 =
      [[Segment.duplex (wrHeader (addr % 256)), Segment.txOnly data]] := by
  rw [write_block_eq addr data.length data t h]

/-- Witness for C7: the spec's scenario write_block(addr=0x10,
data=[0xAA,0xBB]) produces segments [0x00,0x10] then [0xAA,0xBB]. -/
theorem C7_write_single_transaction_witness :
    (cyttsp4_spi_write_block_data 0x10 2 [0xAA, 0xBB] (fun _ => ⟨0, 0x62⟩)).2 =
      [[Segment.duplex [0x00, 0x10], Segment.txOnly [0xAA, 0xBB]]] :=
  C7_write_single_transaction 0x10 [0xAA, 0xBB] (fun _ => ⟨0, 0x62⟩) (by decide)

/-- Claim C8: for all arguments and all transport behaviours — success, ACK
mismatch, transport error, or invalid argument — the trace of each adapter
entry point is pmGet, lockAcquire, then only bus exchanges, then
lockRelease, pmPut: the exclusive lock is taken before any bus activity and
released unconditionally on every exit path, which under mutex semantics
serializes the exchanges of one device. -/
theorem C8_lock_bracketing (addr sizeW sizeR : Nat) (bufW : List Nat)
    (bufR : Option (List Nat)) (t u : Nat → SpiResponse) :
    (∃ ms : List (List Segment),
      (cyttsp4_spi_write addr bufW sizeW t).2 =
        [Event.pmGet, Event.lockAcquire] ++ ms.map Event.busExchange ++
          [Event.lockRelease, Event.pmPut]) ∧
    (∃ ms : List (List Segment),
      (cyttsp4_spi_read addr bufR sizeR u).2 =
        [Event.pmGet, Event.lockAcquire] ++ ms.map Event.busExchange ++
          [Event.lockRelease, Event.pmPut]) :=
  ⟨⟨(cyttsp4_spi_write_block_data addr sizeW bufW t).2, rfl⟩,
   ⟨(cyttsp4_spi_read_block_data addr sizeR bufR u).2, rfl⟩⟩

/-- Claim C9 (implicit): after an exchange the result depends only on the
sync byte — the xfer outcome is identical for any two transport return codes
`a` and `b` (third conjunct) — and the only values the block operations can
return are 0, -EIO and -EINVAL: a distinct TransportError(code) outcome is
unreachable at the public interface. -/
theorem C9_transport_code_never_escapes (addr lengthW lengthR op reg len2 : Nat)
    (dataW : List Nat) (dataR buf : Option (List Nat)) (t u : Nat → SpiResponse)
    (a b : Int) (s : Nat) :
    (cyttsp4_spi_write_block_data addr lengthW dataW t).1 ∈
      ([0, -EIO_val, -EINVAL] : List Int) ∧
    (cyttsp4_spi_read_block_data addr lengthR dataR u).1 ∈
      ([0, -EIO_val, -EINVAL] : List Int) ∧
    cyttsp4_spi_xfer op reg buf len2 ⟨a, s⟩ = cyttsp4_spi_xfer op reg buf len2 ⟨b, s⟩ := by
  refine ⟨?_, ?_, rfl⟩
  · rcases xfer_fst_cases CY_SPI_WR_OP addr (some dataW) lengthW (t 0) with h | h | h <;>
      simp [cyttsp4_spi_write_block_data, h, EINVAL, EIO_val]
  · rcases xfer_fst_cases CY_SPI_WR_OP addr none 0 (u 0) with h1 | h1 | h1 <;>
      rcases xfer_fst_cases CY_SPI_RD_OP addr dataR lengthR (u 1) with h2 | h2 | h2 <;>
        simp [cyttsp4_spi_read_block_data, h1, h2, EINVAL, EIO_val]

/-- Claim C10 (implicit): a write-direction xfer with a NULL payload pointer
transmits a header-only frame whatever the length argument that passes the
size check (first conjunct), while the oversize check still uses the
caller-supplied length (second conjunct); and that header-only frame is
exactly the phase-1 address-set transaction of read_block (third conjunct). -/
theorem C10_null_buffer_header_only (addr length2 L lenR : Nat) (resp : SpiResponse)
    (data : Option (List Nat)) (t : Nat → SpiResponse)
    (h : length2 + CY_SPI_WR_HEADER_BYTES ≤ CY_SPI_DATA_SIZE)
    (hover : L + CY_SPI_WR_HEADER_BYTES > CY_SPI_DATA_SIZE) :
    (cyttsp4_spi_xfer CY_SPI_WR_OP addr none length2 resp).2 =
      some [Segment.duplex (wrHeader (addr % 256))] ∧
    cyttsp4_spi_xfer CY_SPI_WR_OP addr none L resp = (-EINVAL, none) ∧
    (cyttsp4_spi_read_block_data addr lenR data t).2.head? =
      some [Segment.duplex (wrHeader (addr % 256))] := by
  refine ⟨?_, xfer_wr_oversize addr none L resp hover, ?_⟩
  · rw [xfer_wr_eq addr none length2 resp h]
  · rw [read_block_phase1 addr lenR data t]
    rfl

/-- Witness for C10 at concrete inputs (header-only frame with length 0,
oversize length 767, and a read_block whose first transaction is the same
header-only frame). -/
theorem C10_null_buffer_header_only_witness :
    (cyttsp4_spi_xfer CY_SPI_WR_OP 7 none 0 ⟨-5, 0⟩).2 =
      some [Segment.duplex [0x00, 7]] ∧
    cyttsp4_spi_xfer CY_SPI_WR_OP 7 none 767 ⟨-5, 0⟩ = (-EINVAL, none) ∧
    (cyttsp4_spi_read_block_data 7 2 (some [0, 0]) (fun _ => ⟨0, 0x62⟩)).2.head? =
      some [Segment.duplex [0x00, 7]] :=
  C10_null_buffer_header_only 7 0 767 2 ⟨-5, 0⟩ (some [0, 0]) (fun _ => ⟨0, 0x62⟩)
    (by decide) (by decide)

end CyttspSpi
